import Mathlib

set_option maxRecDepth 100000

/-
Shallow embedding of src/satellite_packetizer.c: a three-stage packetizer
turning raw payload chunks into AX.25 UI-frames, FX.25 (Reed-Solomon tagged)
codewords, and KISS-framed serial output.  Machine integers are modelled as
Nat with explicit `% 256` / `% 65536` truncation exactly where the C code
stores into uint8_t / uint16_t; byte buffers are `List Nat`; functions that
write into a caller buffer return the updated buffer explicitly.
-/

/- AX.25 protocol constants (satellite_packetizer.c lines 46-47). -/

def AX25_CONTROL : Nat := 0x03

def PID_NOL3 : Nat := 0xF0

/- FX.25 protocol constants (lines 50-52). -/

def FX25_K : Nat := 223

def FX25_N : Nat := 255

def CORR_TAG : List Nat := [0xCC, 0x8F, 0x8A, 0xE4, 0x85, 0xE2, 0x98, 0x01]

/- KISS protocol constants (lines 55-59). -/

def KISS_FEND : Nat := 0xC0

def KISS_FESC : Nat := 0xDB

def KISS_TFEND : Nat := 0xDC

def KISS_TFESC : Nat := 0xDD

def KISS_CMD_DATA : Nat := 0x00

/- Application constant (line 62). -/

def MAX_PAYLOAD : Nat := 150

/-- Callsign/SSID pair (`ax25_address_t`, lines 72-75).  The callsign is the
byte string held in `call[8]` up to its NUL terminator; `ssid` is the uint8
field (arbitrary Nat here, truncated `% 256` wherever the C code reads it as
uint8). -/
structure ax25_address_t where
  call : List Nat
  ssid : Nat

/-- Reed-Solomon encoder handle (`fx25_encoder_t`, lines 82-84).  The handle
wraps libfec's `init_rs_char(8, 0x187, 112, 11, 32, 0)` state; libfec is an
external library (not part of this repository), so the only fact the embedding
relies on is its interface contract: `encode_rs_char` reads the 223-byte data
region and writes exactly 32 parity bytes (nroots = 32).  The handle is
therefore modelled as the parity function it computes. -/
structure fx25_encoder_t where
  rs_handle : List Nat → {l : List Nat // l.length = 32}

/-- `encode_address` (lines 94-102): encodes a callsign and SSID into the
7-byte AX.25 address format.  Each of the first 6 bytes is the callsign
character shifted left one bit (space-padded), truncated by the uint8_t store;
the 7th byte is `(ssid << 1) | 0b01100000 | last`, truncated by the uint8_t
store. -/
def encode_address (call : List Nat) (ssid : Nat) (last_addr : Bool) : List Nat :=
  ((List.range 6).map fun i =>
    if i < call.length then call.getD i 0 % 256 * 2 % 256 else 0x20 * 2 % 256) ++
  [((ssid % 256) * 2 ||| 0b01100000 ||| (if last_addr then 1 else 0)) % 256]

/-- One iteration of the inner bit loop of `calculate_crc` (lines 111-117):
shift the 16-bit register left and conditionally XOR the polynomial 0x1021,
truncated by the uint16_t store. -/
def crc_round (c : Nat) : Nat :=
  if c &&& 0x8000 ≠ 0 then ((c <<< 1) ^^^ 0x1021) % 65536 else (c <<< 1) % 65536

/-- One iteration of the outer byte loop of `calculate_crc` (lines 109-118):
XOR the next data byte into the high half of the register, then run 8 bit
rounds. -/
def crc_update (crc b : Nat) : Nat :=
  (List.range 8).foldl (fun c _ => crc_round c) (crc ^^^ ((b % 256) <<< 8))

/-- `calculate_crc` (lines 107-120): CRC-16, polynomial 0x1021 MSB-first,
initial register 0xFFFF, final XOR with 0xFFFF. -/
def calculate_crc (data : List Nat) : Nat :=
  (data.foldl crc_update 0xFFFF) ^^^ 0xFFFF

/-- `ax25_generate_ui_frame` (lines 195-218): destination address, source
address (marked last), control 0x03, PID 0xF0, raw payload, then the FCS low
byte first.  The C function writes into `frame_buffer` and returns the length
`pos`; the returned list is exactly the `pos` bytes written, so the C return
value is the length of this list.  Note the C code performs no check on
`payload_len`. -/
def ax25_generate_ui_frame (dest src : ax25_address_t) (payload : List Nat) :
    List Nat :=
  let header :=
    encode_address dest.call dest.ssid false ++
    encode_address src.call src.ssid true ++
    [AX25_CONTROL, PID_NOL3] ++ payload
  let fcs := calculate_crc header
  header ++ [fcs &&& 0xFF, (fcs >>> 8) &&& 0xFF]

/-- `fx25_encode_frame` (lines 163-184): returns the pair (C return value,
output buffer after the call).  If the frame exceeds FX25_K = 223 bytes it
returns 0 having written nothing; otherwise it writes the 8-byte correlation
tag, the zero-padded 223-byte data region, and the 32 parity bytes produced by
`encode_rs_char` over that data region (263 bytes total, the bytes beyond
being the untouched remainder of the caller's buffer), and returns
8 + FX25_N = 263. -/
def fx25_encode_frame (encoder : fx25_encoder_t) (ax25_frame : List Nat)
    (fx25_frame_out : List Nat) : Nat × List Nat :=
  if ax25_frame.length > FX25_K then (0, fx25_frame_out)
  else
    let rs_data := ax25_frame ++ List.replicate (FX25_K - ax25_frame.length) 0
    let rs_block := rs_data ++ (encoder.rs_handle rs_data).val
    (8 + FX25_N, CORR_TAG ++ rs_block ++ fx25_frame_out.drop (8 + FX25_N))

/-- The escape step of `write_kiss_frame` for one byte (lines 238-246): FEND
becomes FESC TFEND, FESC becomes FESC TFESC, anything else passes through. -/
def kiss_escape_byte (b : Nat) : List Nat :=
  if b = KISS_FEND then [KISS_FESC, KISS_TFEND]
  else if b = KISS_FESC then [KISS_FESC, KISS_TFESC]
  else [b]

/-- The body loop of `write_kiss_frame` (lines 237-247): escape every frame
byte in order. -/
def kiss_escape : List Nat → List Nat
  | [] => []
  | b :: rest => kiss_escape_byte b ++ kiss_escape rest

/-- `write_kiss_frame` (lines 231-249): the byte sequence written to the
output stream — start delimiter, data-frame command byte, escaped body, end
delimiter. -/
def write_kiss_frame (frame : List Nat) : List Nat :=
  [KISS_FEND, KISS_CMD_DATA] ++ kiss_escape frame ++ [KISS_FEND]

/-- Modelled from the spec: the KISS unescape direction (`KissFramer.decode`)
is absent from the source (the program is encode-only), so it is defined here
from the spec's escape substitutions read backwards: FESC TFEND yields FEND,
FESC TFESC yields FESC, any other byte passes through. -/
def kiss_unescape : List Nat → List Nat
  | [] => []
  | [b] => if b = KISS_FESC then [] else [b]
  | b :: c :: rest =>
    if b = KISS_FESC then
      (if c = KISS_TFEND then KISS_FEND else KISS_FESC) :: kiss_unescape rest
    else b :: kiss_unescape (c :: rest)

/-- The chunking performed by the `fread` loop in `main` (line 308): the input
byte stream split into successive chunks of up to MAX_PAYLOAD = 150 bytes; a
read of zero bytes ends the run. -/
def chunkPayloads (input : List Nat) : List (List Nat) :=
  if h : input = [] then []
  else input.take MAX_PAYLOAD :: chunkPayloads (input.drop MAX_PAYLOAD)
termination_by input.length
decreasing_by
  simp only [List.length_drop, MAX_PAYLOAD]
  have h0 : 0 < input.length := List.length_pos.mpr h
  omega

/-- The main processing loop of `main` (lines 308-328), with the input stream
and the reused `fx25_buffer` threaded explicitly: read up to 150 bytes, build
the AX.25 frame, FEC-encode it (skipping the chunk on a zero return from
either stage, as the C code does), and count each successfully emitted packet.
Returns the final `packet_count`. -/
def main_loop (encoder : fx25_encoder_t) (dest src : ax25_address_t)
    (input fx25_buffer : List Nat) (packet_count : Nat) : Nat :=
  if h : input = [] then packet_count
  else
    let payload := input.take MAX_PAYLOAD
    let rest := input.drop MAX_PAYLOAD
    let ax25_frame := ax25_generate_ui_frame dest src payload
    if ax25_frame.length = 0 then
      main_loop encoder dest src rest fx25_buffer packet_count
    else
      let r := fx25_encode_frame encoder ax25_frame fx25_buffer
      if r.1 = 0 then main_loop encoder dest src rest r.2 packet_count
      else main_loop encoder dest src rest r.2 (packet_count + 1)
termination_by input.length
decreasing_by
  all_goals
    simp only [List.length_drop, MAX_PAYLOAD]
    have h0 : 0 < input.length := List.length_pos.mpr h
    omega

/-- A concrete encoder whose parity function returns 32 zero bytes; used only
to instantiate theorems at concrete inputs (the claims hold for every parity
function). -/
def rsZero : fx25_encoder_t :=
  ⟨fun _ => ⟨List.replicate 32 0, List.length_replicate 32 0⟩⟩

/-- Concrete destination station used to instantiate theorems: callsign
"CQ". -/
def demo_dest : ax25_address_t := ⟨[0x43, 0x51], 0⟩

/-- Concrete source station used to instantiate theorems: callsign
"N0CALL", SSID 1. -/
def demo_src : ax25_address_t := ⟨[0x4E, 0x30, 0x43, 0x41, 0x4C, 0x4C], 1⟩

/-
Helper lemmas shared by the claim theorems.
-/

/-- The AX.25 address field is always 7 bytes. -/
theorem length_encode_address (call : List Nat) (ssid : Nat) (last_addr : Bool) :
    (encode_address call ssid last_addr).length = 7 := by
  simp [encode_address]

/-- The generated UI-frame is always the payload plus 18 bytes of overhead
(14 address + 2 control/PID + 2 FCS); the C code performs no length check. -/
theorem length_ax25_generate_ui_frame (dest src : ax25_address_t)
    (payload : List Nat) :
    (ax25_generate_ui_frame dest src payload).length = payload.length + 18 := by
  simp [ax25_generate_ui_frame, length_encode_address]
  omega

/-- Normal form of a successful FEC encode: return value 263 and the output
buffer laid out as tag, zero-padded data, parity, untouched remainder. -/
theorem fx25_encode_frame_of_le (encoder : fx25_encoder_t) (frame buf : List Nat)
    (h : frame.length ≤ 223) :
    fx25_encode_frame encoder frame buf =
      (263, CORR_TAG ++ (frame ++ List.replicate (223 - frame.length) 0) ++
        (encoder.rs_handle (frame ++ List.replicate (223 - frame.length) 0)).val ++
        buf.drop 263) := by
  have hlt : ¬ frame.length > FX25_K := by simp [FX25_K]; omega
  unfold fx25_encode_frame
  rw [if_neg hlt]
  simp [FX25_K, FX25_N]

/-- The escape loop of write_kiss_frame is the per-byte escape map,
flattened. -/
theorem kiss_escape_eq_flatten (l : List Nat) :
    kiss_escape l =
      (l.map fun b =>
        if b = 0xC0 then [0xDB, 0xDC]
        else if b = 0xDB then [0xDB, 0xDD]
        else [b]).flatten := by
  induction l with
  | nil => rfl
  | cons b rest ih =>
    simp [kiss_escape, kiss_escape_byte, KISS_FEND, KISS_FESC, KISS_TFEND,
      KISS_TFESC, ih]

/-- Equation lemma: the chunking loop on an empty input yields no chunks. -/
theorem chunkPayloads_nil : chunkPayloads [] = [] := by
  unfold chunkPayloads
  simp

/-- Equation lemma: the chunking loop on nonempty input takes one chunk of up
to 150 bytes and recurses on the remainder. -/
theorem chunkPayloads_cons (input : List Nat) (h : input ≠ []) :
    chunkPayloads input =
      input.take MAX_PAYLOAD :: chunkPayloads (input.drop MAX_PAYLOAD) := by
  conv_lhs => rw [chunkPayloads]
  rw [dif_neg h]

/-- Equation lemma: the main loop ends when a read returns zero bytes,
reporting the packet count accumulated so far. -/
theorem main_loop_nil (encoder : fx25_encoder_t) (dest src : ax25_address_t)
    (buf : List Nat) (n : Nat) :
    main_loop encoder dest src [] buf n = n := by
  unfold main_loop
  simp

/-- Equation lemma: one iteration of the main loop on nonempty input always
succeeds (the chunk is at most 150 bytes, so the frame is at most 168 ≤ 223
bytes) and increments the packet count. -/
theorem main_loop_step (encoder : fx25_encoder_t) (dest src : ax25_address_t)
    (input buf : List Nat) (n : Nat) (h : input ≠ []) :
    main_loop encoder dest src input buf n =
      main_loop encoder dest src (input.drop MAX_PAYLOAD)
        (fx25_encode_frame encoder
          (ax25_generate_ui_frame dest src (input.take MAX_PAYLOAD)) buf).2
        (n + 1) := by
  have hax : (ax25_generate_ui_frame dest src (input.take MAX_PAYLOAD)).length =
      (input.take MAX_PAYLOAD).length + 18 :=
    length_ax25_generate_ui_frame dest src (input.take MAX_PAYLOAD)
  have hle : (ax25_generate_ui_frame dest src (input.take MAX_PAYLOAD)).length ≤ 223 := by
    rw [hax, List.length_take]
    simp only [MAX_PAYLOAD]
    have hm : min 150 input.length ≤ 150 := Nat.min_le_left _ _
    omega
  have hfst : (fx25_encode_frame encoder
      (ax25_generate_ui_frame dest src (input.take MAX_PAYLOAD)) buf).1 = 263 := by
    rw [fx25_encode_frame_of_le _ _ _ hle]
  conv_lhs => rw [main_loop]
  rw [dif_neg h]
  simp only [hax, hfst]
  norm_num

/-
Claim theorems.
-/

/-- C1: for every AX.25 frame of at most 223 bytes, fx25_encode_frame succeeds
returning the total length 263, and the 263 bytes written to the output buffer
are the fixed correlation tag (bytes 0-7), the input frame (bytes 8 through
8 + length - 1), zeros through byte 230, and the parity; bytes beyond 263 are
the caller's untouched buffer. -/
theorem fx25_encode_frame_ok (encoder : fx25_encoder_t) (frame buf : List Nat)
    (h : frame.length ≤ 223) :
    (fx25_encode_frame encoder frame buf).1 = 263 ∧
    (fx25_encode_frame encoder frame buf).2.take 8 = CORR_TAG ∧
    ((fx25_encode_frame encoder frame buf).2.drop 8).take 223 =
      frame ++ List.replicate (223 - frame.length) 0 ∧
    (fx25_encode_frame encoder frame buf).2.drop 263 = buf.drop 263 := by
  rw [fx25_encode_frame_of_le encoder frame buf h]
  have htag : CORR_TAG.length = 8 := rfl
  have hD : (frame ++ List.replicate (223 - frame.length) 0).length = 223 := by
    simp
    omega
  have hP : (encoder.rs_handle (frame ++ List.replicate (223 - frame.length) 0)).val.length = 32 :=
    (encoder.rs_handle (frame ++ List.replicate (223 - frame.length) 0)).property
  refine ⟨rfl, ?_, ?_, ?_⟩
  · rw [List.append_assoc, List.append_assoc, List.take_left' htag]
  · rw [List.append_assoc, List.append_assoc, List.drop_left' htag,
      ← List.append_assoc, List.append_assoc, List.take_left' hD]
  · rw [List.drop_left']
    simp only [List.length_append, htag, hD, hP]

/-- C1 witness: a concrete one-byte frame, with the zero-parity encoder and a
concrete 300-byte buffer. -/
theorem fx25_encode_frame_ok_witness :
    (fx25_encode_frame rsZero [0x10] (List.replicate 300 7)).1 = 263 ∧
    (fx25_encode_frame rsZero [0x10] (List.replicate 300 7)).2.take 8 = CORR_TAG ∧
    ((fx25_encode_frame rsZero [0x10] (List.replicate 300 7)).2.drop 8).take 223 =
      [0x10] ++ List.replicate (223 - ([0x10] : List Nat).length) 0 ∧
    (fx25_encode_frame rsZero [0x10] (List.replicate 300 7)).2.drop 263 =
      (List.replicate 300 7 : List Nat).drop 263 :=
  fx25_encode_frame_ok rsZero [0x10] (List.replicate 300 7) (by decide)

/-- C2: write_kiss_frame emits the start delimiter 0xC0, the command byte
0x00, the body with 0xC0 replaced by 0xDB 0xDC and 0xDB replaced by 0xDB 0xDD
and every other byte unchanged, then the end delimiter 0xC0. -/
theorem write_kiss_frame_spec (frame : List Nat) :
    write_kiss_frame frame =
      [0xC0, 0x00] ++
        (frame.map fun b =>
          if b = 0xC0 then [0xDB, 0xDC]
          else if b = 0xDB then [0xDB, 0xDD]
          else [b]).flatten ++
      [0xC0] := by
  rw [write_kiss_frame, kiss_escape_eq_flatten]
  rfl

/-- C3 counterexample: the CRC of the ASCII bytes of "123456789" is not the
claimed CCITT check value 0x29B1 (that value belongs to the variant without
the final XOR, which this code performs). -/
theorem calculate_crc_check_not_29B1 :
    calculate_crc [0x31, 0x32, 0x33, 0x34, 0x35, 0x36, 0x37, 0x38, 0x39] ≠ 0x29B1 := by
  decide

/-- C3 (amended): with initial register 0xFFFF, polynomial 0x1021 MSB-first,
and final XOR with 0xFFFF — the algorithm the code implements — the check
value over the ASCII bytes of "123456789" is 0xD64E (= 0x29B1 XOR 0xFFFF). -/
theorem calculate_crc_check_value :
    calculate_crc [0x31, 0x32, 0x33, 0x34, 0x35, 0x36, 0x37, 0x38, 0x39] = 0xD64E := by
  decide

/-- C4 counterexample: with the empty payload the generated UI-frame has
18 bytes (14 address + 2 control/PID + 2 FCS), not payload length + 16. -/
theorem ax25_frame_length_ne_16 :
    (ax25_generate_ui_frame demo_dest demo_src []).length ≠
      ([] : List Nat).length + 16 := by
  have := length_ax25_generate_ui_frame demo_dest demo_src []
  simp at this
  simp [this]

/-- C4 (amended): for every payload of length 0 through 150 the generated
UI-frame's total length is the payload length plus 18 (14 address bytes +
2 control/PID + 2 FCS). -/
theorem ax25_frame_length_eq_add_18 (dest src : ax25_address_t)
    (payload : List Nat) (h : payload.length ≤ 150) :
    (ax25_generate_ui_frame dest src payload).length = payload.length + 18 :=
  length_ax25_generate_ui_frame dest src payload

/-- C4 witness: a maximal 150-byte payload at the concrete stations. -/
theorem ax25_frame_length_eq_add_18_witness :
    (ax25_generate_ui_frame demo_dest demo_src (List.replicate 150 0)).length =
      (List.replicate 150 0 : List Nat).length + 18 :=
  ax25_frame_length_eq_add_18 demo_dest demo_src (List.replicate 150 0) (by simp)

/-- C5 counterexample: a 151-byte payload is not rejected — the code has no
payload-length check, so a full 169-byte frame is produced (the C return value
is the frame length 169, not the error value 0). -/
theorem ax25_oversize_payload_returns_frame :
    (ax25_generate_ui_frame demo_dest demo_src (List.replicate 151 0)).length = 169 := by
  have := length_ax25_generate_ui_frame demo_dest demo_src (List.replicate 151 0)
  simpa using this

/-- C5 (amended): ax25_generate_ui_frame never fails: even when the payload
exceeds 150 bytes it returns a complete frame of payload length + 18 bytes
(oversized chunks are only rejected downstream, by fx25_encode_frame, once the
frame exceeds 223 bytes). -/
theorem ax25_no_payload_check (dest src : ax25_address_t) (payload : List Nat)
    (h : 150 < payload.length) :
    (ax25_generate_ui_frame dest src payload).length = payload.length + 18 :=
  length_ax25_generate_ui_frame dest src payload

/-- C5 witness: the 151-byte oversized payload at the concrete stations. -/
theorem ax25_no_payload_check_witness :
    (ax25_generate_ui_frame demo_dest demo_src (List.replicate 151 0)).length =
      (List.replicate 151 0 : List Nat).length + 18 :=
  ax25_no_payload_check demo_dest demo_src (List.replicate 151 0) (by simp)

/-- C6: on a 301-byte input the driver loop reads chunks of 150, 150 and 1
bytes, terminates on the zero-byte read, and reports a final packet count of
exactly 3. -/
theorem main_loop_301_packets (encoder : fx25_encoder_t)
    (dest src : ax25_address_t) (input buf : List Nat)
    (h : input.length = 301) :
    main_loop encoder dest src input buf 0 = 3 ∧
    (chunkPayloads input).map List.length = [150, 150, 1] := by
  have h0 : input ≠ [] := by
    intro hnil
    rw [hnil] at h
    simp at h
  have hl1 : (input.drop MAX_PAYLOAD).length = 151 := by
    simp [MAX_PAYLOAD, h]
  have h1 : input.drop MAX_PAYLOAD ≠ [] := by
    intro hnil
    rw [hnil] at hl1
    simp at hl1
  have hl2 : ((input.drop MAX_PAYLOAD).drop MAX_PAYLOAD).length = 1 := by
    simp [MAX_PAYLOAD, h]
  have h2 : (input.drop MAX_PAYLOAD).drop MAX_PAYLOAD ≠ [] := by
    intro hnil
    rw [hnil] at hl2
    simp at hl2
  have h3 : (((input.drop MAX_PAYLOAD).drop MAX_PAYLOAD).drop MAX_PAYLOAD) = [] := by
    apply List.eq_nil_of_length_eq_zero
    simp [MAX_PAYLOAD, h]
  constructor
  · rw [main_loop_step _ _ _ _ _ _ h0, main_loop_step _ _ _ _ _ _ h1,
      main_loop_step _ _ _ _ _ _ h2, h3, main_loop_nil]
  · rw [chunkPayloads_cons _ h0, chunkPayloads_cons _ h1, chunkPayloads_cons _ h2,
      h3, chunkPayloads_nil]
    simp [List.length_take, MAX_PAYLOAD, h, hl1, hl2]

/-- C6 witness: a concrete all-zero 301-byte input with the zero-parity
encoder and the concrete stations. -/
theorem main_loop_301_packets_witness :
    main_loop rsZero demo_dest demo_src (List.replicate 301 0) [] 0 = 3 ∧
    (chunkPayloads (List.replicate 301 0)).map List.length = [150, 150, 1] :=
  main_loop_301_packets rsZero demo_dest demo_src (List.replicate 301 0) []
    (by simp)

/-- C7: the KISS escape performed by write_kiss_frame is invertible —
kiss_unescape recovers every original byte sequence from its escaped body. -/
theorem kiss_roundtrip (x : List Nat) : kiss_unescape (kiss_escape x) = x := by
  induction x with
  | nil => rfl
  | cons b rest ih =>
    have hnil : kiss_escape rest = [] → rest = [] := by
      intro hes
      have h2 := ih
      rw [hes] at h2
      exact h2.symm
    rw [kiss_escape, kiss_escape_byte]
    simp only [KISS_FEND, KISS_FESC, KISS_TFEND, KISS_TFESC]
    by_cases hC0 : b = 0xC0
    · subst hC0
      rw [if_pos rfl]
      cases hes : kiss_escape rest with
      | nil => rw [hnil hes]; rfl
      | cons c r =>
        rw [List.cons_append, List.cons_append, List.nil_append,
          show ∀ l : List Nat, kiss_unescape (0xDB :: 0xDC :: l) =
            0xC0 :: kiss_unescape l from
              fun l => by simp [kiss_unescape, KISS_FESC, KISS_TFEND, KISS_FEND],
          ← hes, ih]
    · by_cases hDB : b = 0xDB
      · subst hDB
        rw [if_neg (by norm_num), if_pos rfl]
        cases hes : kiss_escape rest with
        | nil => rw [hnil hes]; rfl
        | cons c r =>
          rw [List.cons_append, List.cons_append, List.nil_append,
            show ∀ l : List Nat, kiss_unescape (0xDB :: 0xDD :: l) =
              0xDB :: kiss_unescape l from
                fun l => by simp [kiss_unescape, KISS_FESC, KISS_TFEND, KISS_FEND],
            ← hes, ih]
      · rw [if_neg hC0, if_neg hDB]
        cases hes : kiss_escape rest with
        | nil =>
          rw [hnil hes, List.append_nil]
          simp [kiss_unescape, KISS_FESC, hDB]
        | cons c r =>
          rw [List.cons_append, List.nil_append,
            show kiss_unescape (b :: c :: r) = b :: kiss_unescape (c :: r) from by
              simp [kiss_unescape, KISS_FESC, hDB],
            ← hes, ih]

/-- C8: fx25_encode_frame returns the error value 0 exactly when the input
frame exceeds 223 bytes; otherwise it returns 263. -/
theorem fx25_encode_frame_error_iff (encoder : fx25_encoder_t)
    (frame buf : List Nat) :
    (fx25_encode_frame encoder frame buf).1 = 0 ↔ 223 < frame.length := by
  by_cases h : frame.length ≤ 223
  · rw [fx25_encode_frame_of_le encoder frame buf h]
    simp
    omega
  · rw [fx25_encode_frame, if_pos (by simp [FX25_K]; omega)]
    simp [FX25_K]
    omega

/-- C9 counterexample: SSID 64 (outside 0-15) does not produce the same
address bytes as its low 4 bits (SSID 0): bit 6 of the SSID leaks into the
top bit of the 7th byte (0xE0 versus 0x60). -/
theorem encode_address_ssid64_differs :
    encode_address [0x4E, 0x30, 0x43, 0x41, 0x4C, 0x4C] 64 false ≠
      encode_address [0x4E, 0x30, 0x43, 0x41, 0x4C, 0x4C] (64 % 16) false := by
  decide

/-- Bit-level fact behind the SSID masking behaviour, settled by exhausting
the 256 byte values: whenever bit 6 of the (uint8-truncated) SSID is clear,
bits 4 and 5 are absorbed by the reserved bits 0b01100000, so the packed 7th
byte agrees with the one computed from the low 4 bits alone. -/
theorem ssid_mask_bitcases :
    ∀ s < 256, s &&& 64 = 0 → ∀ L < 2,
      (s * 2 ||| 0b01100000 ||| L) % 256 = (s % 16 * 2 ||| 0b01100000 ||| L) % 256 := by
  decide

/-- C9 (amended): encode_address raises no error for any SSID value, and its
output equals the output for the SSID reduced to its low 4 bits exactly for
SSIDs whose bit 6 (after uint8 truncation) is clear; SSIDs with bit 6 set leak
that bit into the top bit of the 7th byte instead. -/
theorem encode_address_ssid_mask (call : List Nat) (ssid : Nat)
    (last_addr : Bool) (h : ssid % 256 &&& 64 = 0) :
    encode_address call ssid last_addr =
      encode_address call (ssid % 16) last_addr := by
  have hm : ssid % 16 < 16 := Nat.mod_lt ssid (by norm_num)
  have h16 : ssid % 16 % 256 = ssid % 256 % 16 := by
    rw [Nat.mod_mod_of_dvd ssid (by norm_num : (16 : Nat) ∣ 256)]
    exact Nat.mod_eq_of_lt (lt_trans hm (by norm_num))
  have hL : (if last_addr then 1 else 0) < 2 := by
    cases last_addr <;> simp
  have hbyte := ssid_mask_bitcases (ssid % 256)
    (Nat.mod_lt ssid (by norm_num)) h (if last_addr then 1 else 0) hL
  unfold encode_address
  rw [h16, hbyte]

/-- C9 witness: SSID 17 (outside 0-15, bit 6 clear) encodes identically to
SSID 1. -/
theorem encode_address_ssid_mask_witness :
    encode_address [0x4E, 0x30, 0x43, 0x41, 0x4C, 0x4C] 17 false =
      encode_address [0x4E, 0x30, 0x43, 0x41, 0x4C, 0x4C] (17 % 16) false :=
  encode_address_ssid_mask [0x4E, 0x30, 0x43, 0x41, 0x4C, 0x4C] 17 false
    (by decide)

/-- C10: the FEC encode is atomic on error: with a frame longer than 223 bytes
it returns the error value 0 and the caller's output buffer entirely
unchanged. -/
theorem fx25_encode_frame_error_atomic (encoder : fx25_encoder_t)
    (frame buf : List Nat) (h : 223 < frame.length) :
    fx25_encode_frame encoder frame buf = (0, buf) := by
  rw [fx25_encode_frame, if_pos (by simp [FX25_K]; omega)]

/-- C10 witness: a concrete 224-byte frame against a concrete 3-byte buffer
comes back with error value 0 and the buffer intact. -/
theorem fx25_encode_frame_error_atomic_witness :
    fx25_encode_frame rsZero (List.replicate 224 0) [1, 2, 3] = (0, [1, 2, 3]) :=
  fx25_encode_frame_error_atomic rsZero (List.replicate 224 0) [1, 2, 3]
    (by simp)
